import Mathlib

/-
Verification of `msgq/visionipc/visionbuf_dma-buf.cc` (the VisionBuf
shared-memory buffer lifecycle): allocation from the ION heap, import of an
existing dma-buf handle, OpenCL registration, cache synchronization, and
teardown.  The C++ code is shallowly embedded: each kernel / OpenCL call is
an oracle supplied by an `Env` record (its result is not determined by the
code under verification), resource liveness is tracked by a `KState` record,
and the side effects an operation performs are recorded as a `KEvent` trace.
Fatal `assert` failures are modelled by returning `none`.
-/

namespace DmaBuf

/-- Constant `PADDING_CL` from the source (`#define PADDING_CL 0`). -/
def PADDING_CL : Nat := 0

/-- Constant `DEVICE_PAGE_SIZE_CL` from the source (`#define DEVICE_PAGE_SIZE_CL 4096`). -/
def DEVICE_PAGE_SIZE_CL : Nat := 4096

/-- Size of the `uint64_t` frame counter appended past the payload (`sizeof(uint64_t)`). -/
def SIZEOF_UINT64 : Nat := 8

/-- Value of `ION_FLAG_CACHED` from `linux/ion.h` (CPU-cacheable allocation). -/
def ION_FLAG_CACHED : Nat := 1

/-- Value of `ION_SYSTEM_HEAP_ID` from the msm kernel headers (header not under
`src/`; the concrete value is immaterial to every claim, only the fact that the
request carries `1 << ION_SYSTEM_HEAP_ID` is used). -/
def ION_SYSTEM_HEAP_ID : Nat := 25

/-- Value of `DMA_BUF_SYNC_RW` from `linux/dma-buf.h` (`READ | WRITE = 1 | 2`). -/
def DMA_BUF_SYNC_RW : Nat := 3

/-- Value of `DMA_BUF_SYNC_START` from `linux/dma-buf.h`. -/
def DMA_BUF_SYNC_START : Nat := 0

/-- Value of `DMA_BUF_SYNC_END` from `linux/dma-buf.h` (`1 << 2`). -/
def DMA_BUF_SYNC_END : Nat := 4

/-- Modelled from the spec: the sync direction constant `VISIONBUF_SYNC_FROM_DEVICE`
declared in `visionbuf.h`, which is not under `src/`; only its distinctness from
`VISIONBUF_SYNC_TO_DEVICE` matters to the code. -/
def VISIONBUF_SYNC_FROM_DEVICE : Int := 0

/-- Modelled from the spec: the sync direction constant `VISIONBUF_SYNC_TO_DEVICE`
declared in `visionbuf.h`, which is not under `src/`. -/
def VISIONBUF_SYNC_TO_DEVICE : Int := 1

/-- Retry bound of the `HANDLE_EINTR` macro (`try_cnt++ < 100`). -/
def EINTR_RETRY_BOUND : Nat := 100

/-- Modulus of `size_t` / `__u64` / pointer arithmetic on the 64-bit target:
2^64.  The `ion_allocation_data.len` computation and the pointer arithmetic
for `frame_id` wrap at this bound in the source. -/
def SIZE_T_MOD : Nat := 18446744073709551616

/-- The fields of `struct VisionBuf` used by `visionbuf_dma-buf.cc`.
Pointers are modelled as `Nat` addresses with `0` for null (`addr`, `frame_id`,
`buf_cl`); the dma-buf file descriptor `fd` is an `Int` (negative = invalid). -/
structure VisionBuf where
  len : Nat
  mmap_len : Nat
  addr : Nat
  fd : Int
  frame_id : Nat
  buf_cl : Nat
  deriving DecidableEq, Repr

/-- Process memory, as a map from byte address to byte value. -/
def Mem : Type := Nat → Nat

/-- The effect of `memset(dst, c, n)` on memory. -/
def memset (m : Mem) (dst : Nat) (c : Nat) (n : Nat) : Mem :=
  fun x => if dst ≤ x ∧ x < dst + n then c else m x

/-- The fields of `struct ion_allocation_data` that `VisionBuf::allocate` fills
in before issuing `ION_IOC_ALLOC`. -/
structure IonRequest where
  len : Nat
  heap_id_mask : Nat
  flags : Nat
  deriving DecidableEq, Repr

/-- Observable kernel / OpenCL side effects of the VisionBuf operations. -/
inductive KEvent where
  | ionAllocReq (req : IonRequest)
  | mmapReq (fd : Int) (length : Nat)
  | memsetZero (dst : Nat) (n : Nat)
  | clRelease
  | munmapCall
  | closeCall
  deriving DecidableEq, Repr

/-- Liveness of the three kernel-side resources owned by one buffer: its dma-buf
file descriptor, its virtual-memory mapping, and its OpenCL memory object. -/
structure KState where
  fdOpen : Bool
  mapLive : Bool
  clLive : Bool
  deriving DecidableEq, Repr

/-- Oracle for every external call the source makes.  A `Nat → Int × Bool`
stream gives, per attempt index, the call's return value and whether `errno`
was `EINTR` at that point (the only `errno` value the code inspects). -/
structure Env where
  ionCalls : IonRequest → Nat → Int × Bool
  ionFd : IonRequest → Int
  mmapRes : Int → Nat → Option Nat
  syncCalls : Int → Nat → Nat → Int × Bool
  clCreateErr : Int
  clMemHandle : Nat
  clReleaseRes : Int
  munmapRes : Int
  closeRes : Int

/-- POSIX sanity of the mapper: a successful `mmap(NULL, ...)` (no `MAP_FIXED`)
never returns the null address, and the returned pointer is a 64-bit address. -/
def Env.mmapSane (env : Env) : Prop :=
  ∀ fd l a, env.mmapRes fd l = some a → 0 < a ∧ a < SIZE_T_MOD

/-- Loop body of the `HANDLE_EINTR` macro: attempt `i` evaluates `calls i`;
while the result is `-1` with `errno == EINTR` and retries remain (`fuel`),
try again; once the bound is exhausted the last result is returned as is. -/
def handleEintrGo (calls : Nat → Int × Bool) : Nat → Nat → Int
  | i, 0 => (calls i).1
  | i, fuel + 1 =>
    let r := calls i
    if r.1 = -1 ∧ r.2 = true then handleEintrGo calls (i + 1) fuel else r.1

/-- The `HANDLE_EINTR(x)` macro: performs the call, retrying on
`ret == -1 && errno == EINTR` up to `try_cnt++ < 100` further attempts
(at most 101 evaluations in total). -/
def HANDLE_EINTR (calls : Nat → Int × Bool) : Int :=
  handleEintrGo calls 0 EINTR_RETRY_BOUND

/-- The `ion_allocation_data` request built by `VisionBuf::allocate(length)`:
`len = length + PADDING_CL + sizeof(uint64_t)` computed in `size_t`/`__u64`
arithmetic (so it wraps mod 2^64), system-heap mask, cached flag. -/
def ionRequestFor (length : Nat) : IonRequest :=
  { len := (length + PADDING_CL + SIZEOF_UINT64) % SIZE_T_MOD
    heap_id_mask := 1 <<< ION_SYSTEM_HEAP_ID
    flags := ION_FLAG_CACHED }

/-- Embedding of `VisionBuf::allocate(size_t length)`.  Issues `ION_IOC_ALLOC`
through `HANDLE_EINTR` with the (mod-2^64) request size, asserts the ioctl
succeeded, maps the new fd read/write (the returned pointer is a 64-bit
address), asserts the mapping succeeded, zero-fills the whole mapped region
with `memset`, then writes `len`, `mmap_len`, `addr`, `fd` and `frame_id`;
the pointer arithmetic `addr + len + PADDING_CL` for `frame_id` wraps mod
2^64 like the machine's.  `none` models a failed `assert` (fatal abort). -/
def VisionBuf.allocate (env : Env) (k : KState) (mem : Mem) (b : VisionBuf)
    (length : Nat) : Option (VisionBuf × KState × Mem × List KEvent) :=
  let req := ionRequestFor length
  let err := HANDLE_EINTR (env.ionCalls req)
  if err = 0 then
    match env.mmapRes (env.ionFd req) req.len with
    | none => none
    | some m =>
      let mmap_addr := m % SIZE_T_MOD
      some
        ({ b with
            len := length
            mmap_len := req.len
            addr := mmap_addr
            fd := env.ionFd req
            frame_id := (mmap_addr + length + PADDING_CL) % SIZE_T_MOD },
          { k with fdOpen := true, mapLive := true },
          memset mem mmap_addr 0 req.len,
          [KEvent.ionAllocReq req, KEvent.mmapReq (env.ionFd req) req.len,
            KEvent.memsetZero mmap_addr req.len])
  else none

/-- Embedding of `VisionBuf::import()`.  Asserts `fd >= 0`, maps the existing
fd over `mmap_len` bytes (a closed fd makes `mmap` fail with `MAP_FAILED`),
asserts the mapping succeeded, and recomputes `addr` and `frame_id`.  The
memory contents and all other fields are untouched. -/
def VisionBuf.importBuf (env : Env) (k : KState) (mem : Mem) (b : VisionBuf) :
    Option (VisionBuf × KState × Mem × List KEvent) :=
  if 0 ≤ b.fd then
    match (if k.fdOpen then env.mmapRes b.fd b.mmap_len else none) with
    | none => none
    | some mmap_addr =>
      some
        ({ b with
            addr := mmap_addr
            frame_id := mmap_addr + b.len + PADDING_CL },
          { k with mapLive := true },
          mem,
          [KEvent.mmapReq b.fd b.mmap_len])
  else none

/-- Embedding of `VisionBuf::init_cl`.  Asserts `addr` is aligned to
`DEVICE_PAGE_SIZE_CL`, calls `clCreateBuffer` over the ion fd and host pointer
(a closed fd is rejected by the OpenCL runtime), asserts `err == 0`, and
stores the resulting memory object in `buf_cl`. -/
def VisionBuf.init_cl (env : Env) (k : KState) (b : VisionBuf) :
    Option (VisionBuf × KState) :=
  if b.addr % DEVICE_PAGE_SIZE_CL = 0 then
    let err := if k.fdOpen then env.clCreateErr else -38
    if err = 0 then
      some ({ b with buf_cl := env.clMemHandle }, { k with clLive := true })
    else none
  else none

/-- The `dma_buf_sync.flags` value `VisionBuf::sync` builds for a direction:
`START | RW` for `FROM_DEVICE`, `END | RW` for `TO_DEVICE`. -/
def syncFlags (dir : Int) : Nat :=
  if dir = VISIONBUF_SYNC_FROM_DEVICE then
    DMA_BUF_SYNC_START ||| DMA_BUF_SYNC_RW
  else
    DMA_BUF_SYNC_END ||| DMA_BUF_SYNC_RW

/-- Outcome stream of `ioctl(fd, DMA_BUF_IOCTL_SYNC, &sync)` attempts: on an
open fd the environment decides; on a closed fd every attempt fails with
`EBADF` (so `-1` and not `EINTR`). -/
def ioctlSyncStream (env : Env) (k : KState) (fd : Int) (flags : Nat) :
    Nat → Int × Bool :=
  fun i => if k.fdOpen then env.syncCalls fd flags i else (-1, false)

/-- Embedding of `int VisionBuf::sync(int dir)`.  Asserts the direction is one
of the two valid constants (`none` = fatal assert otherwise), builds the fixed
flags word once, and returns the result of the `HANDLE_EINTR`-wrapped ioctl on
`this->fd` as its status. -/
def VisionBuf.sync (env : Env) (k : KState) (b : VisionBuf) (dir : Int) :
    Option Int :=
  if dir = VISIONBUF_SYNC_FROM_DEVICE ∨ dir = VISIONBUF_SYNC_TO_DEVICE then
    some (HANDLE_EINTR (ioctlSyncStream env k b.fd (syncFlags dir)))
  else none

/-- Result and state effect of `clReleaseMemObject(buf_cl)`: on a live object
the environment decides, success killing the object; on an already-dead object
the runtime rejects the handle (`CL_INVALID_MEM_OBJECT = -38`). -/
def clReleaseC (env : Env) (k : KState) : Int × KState :=
  if k.clLive then
    (env.clReleaseRes,
      if env.clReleaseRes = 0 then { k with clLive := false } else k)
  else (-38, k)

/-- Result and state effect of `munmap(addr, mmap_len)`: on a live mapping the
environment decides, success unmapping it; with no live mapping the call fails
(`EINVAL`). -/
def munmapC (env : Env) (k : KState) : Int × KState :=
  if k.mapLive then
    (env.munmapRes,
      if env.munmapRes = 0 then { k with mapLive := false } else k)
  else (-1, k)

/-- Result and state effect of `close(fd)`: on an open fd the environment
decides, success closing it; on a closed fd the call fails (`EBADF`). -/
def closeC (env : Env) (k : KState) : Int × KState :=
  if k.fdOpen then
    (env.closeRes,
      if env.closeRes = 0 then { k with fdOpen := false } else k)
  else (-1, k)

/-- The tail of `VisionBuf::free` after the OpenCL step:
`err = munmap(...); if (err != 0) return err; return close(this->fd);`. -/
def freeTail (env : Env) (k : KState) : Int × KState × List KEvent :=
  let m := munmapC env k
  if m.1 ≠ 0 then (m.1, m.2, [KEvent.munmapCall])
  else
    let c := closeC env m.2
    (c.1, c.2, [KEvent.munmapCall, KEvent.closeCall])

/-- Embedding of `int VisionBuf::free()`.  If `buf_cl` is non-null, release the
OpenCL memory object first and return its error without touching anything else
when it fails; then `munmap`, returning its error (without closing) when it
fails; finally `close(fd)`, whose status is returned. -/
def VisionBuf.free (env : Env) (k : KState) (b : VisionBuf) :
    Int × KState × List KEvent :=
  if b.buf_cl ≠ 0 then
    let r := clReleaseC env k
    if r.1 ≠ 0 then (r.1, r.2, [KEvent.clRelease])
    else
      let t := freeTail env r.2
      (t.1, t.2.1, KEvent.clRelease :: t.2.2)
  else freeTail env k

/-- Every run of the retry loop returns the result of one of the attempts
`i, ..., i + fuel` verbatim (the loop performs a bounded number of calls and
surfaces the last result unchanged). -/
theorem handleEintrGo_exists (calls : Nat → Int × Bool) :
    ∀ fuel i, ∃ j, i ≤ j ∧ j ≤ i + fuel ∧
      handleEintrGo calls i fuel = (calls j).1 := by
  intro fuel
  induction fuel with
  | zero =>
    intro i
    exact ⟨i, le_refl i, by omega, rfl⟩
  | succ fuel ih =>
    intro i
    by_cases h : (calls i).1 = -1 ∧ (calls i).2 = true
    · obtain ⟨j, h1, h2, h3⟩ := ih (i + 1)
      refine ⟨j, by omega, by omega, ?_⟩
      simp only [handleEintrGo]
      rw [if_pos h]
      exact h3
    · refine ⟨i, le_refl i, by omega, ?_⟩
      simp only [handleEintrGo]
      rw [if_neg h]

/-- If every attempt in the window fails with `EINTR`, the loop exhausts its
bound and returns `-1`. -/
theorem handleEintrGo_exhaust (calls : Nat → Int × Bool) :
    ∀ fuel i, (∀ j, i ≤ j → j ≤ i + fuel → calls j = (-1, true)) →
      handleEintrGo calls i fuel = -1 := by
  intro fuel
  induction fuel with
  | zero =>
    intro i h
    have hi := h i (le_refl i) (by omega)
    simp only [handleEintrGo, hi]
  | succ fuel ih =>
    intro i h
    have hi := h i (le_refl i) (by omega)
    have hc : (calls i).1 = -1 ∧ (calls i).2 = true := by
      rw [hi]; exact ⟨rfl, rfl⟩
    simp only [handleEintrGo]
    rw [if_pos hc]
    exact ih (i + 1) (fun j hj1 hj2 => h j (by omega) (by omega))

/-- If attempts `i, ..., m - 1` fail with `EINTR` and attempt `m` does not,
the loop returns attempt `m`'s result verbatim: a failure for any other reason
is surfaced immediately. -/
theorem handleEintrGo_first (calls : Nat → Int × Bool) :
    ∀ fuel i m, i ≤ m → m ≤ i + fuel →
      (∀ j, i ≤ j → j < m → calls j = (-1, true)) →
      ¬((calls m).1 = -1 ∧ (calls m).2 = true) →
      handleEintrGo calls i fuel = (calls m).1 := by
  intro fuel
  induction fuel with
  | zero =>
    intro i m h1 h2 _ _
    have : m = i := by omega
    subst this
    rfl
  | succ fuel ih =>
    intro i m h1 h2 hpre hm
    by_cases he : i = m
    · subst he
      simp only [handleEintrGo]
      rw [if_neg hm]
    · have hi : calls i = (-1, true) := hpre i (le_refl i) (by omega)
      have hc : (calls i).1 = -1 ∧ (calls i).2 = true := by
        rw [hi]; exact ⟨rfl, rfl⟩
      simp only [handleEintrGo]
      rw [if_pos hc]
      exact ih (i + 1) m (by omega) (by omega)
        (fun j hj1 hj2 => hpre j (by omega) hj2) hm

/-- Characterization of a successful `allocate`: the ioctl (after retries)
returned 0, the mapping succeeded at some address `a`, and the output is
exactly the updated buffer, state, zeroed memory and trace from the source. -/
theorem allocate_some_iff (env : Env) (k : KState) (mem : Mem) (b : VisionBuf)
    (length : Nat) (out : VisionBuf × KState × Mem × List KEvent) :
    VisionBuf.allocate env k mem b length = some out ↔
      (HANDLE_EINTR (env.ionCalls (ionRequestFor length)) = 0 ∧
        ∃ a, env.mmapRes (env.ionFd (ionRequestFor length))
              (ionRequestFor length).len = some a ∧
          out = ({ b with
                    len := length
                    mmap_len := (ionRequestFor length).len
                    addr := a % SIZE_T_MOD
                    fd := env.ionFd (ionRequestFor length)
                    frame_id :=
                      (a % SIZE_T_MOD + length + PADDING_CL) % SIZE_T_MOD },
                  { k with fdOpen := true, mapLive := true },
                  memset mem (a % SIZE_T_MOD) 0 (ionRequestFor length).len,
                  [KEvent.ionAllocReq (ionRequestFor length),
                    KEvent.mmapReq (env.ionFd (ionRequestFor length))
                      (ionRequestFor length).len,
                    KEvent.memsetZero (a % SIZE_T_MOD)
                      (ionRequestFor length).len])) := by
  constructor
  · intro h
    simp only [VisionBuf.allocate] at h
    split at h
    · split at h
      · exact absurd h (by simp)
      · rename_i a heq
        refine ⟨by assumption, a, heq, ?_⟩
        exact (Option.some_inj.mp h).symm
    · exact absurd h (by simp)
  · rintro ⟨herr, a, ha, hout⟩
    simp only [VisionBuf.allocate]
    rw [if_pos herr, ha, hout]

/-- Characterization of a successful `importBuf`: the fd field is
non-negative, the fd is actually open, the mapping succeeded at some address
`a`, and the output is exactly the source's update. -/
theorem importBuf_some_iff (env : Env) (k : KState) (mem : Mem)
    (b : VisionBuf) (out : VisionBuf × KState × Mem × List KEvent) :
    VisionBuf.importBuf env k mem b = some out ↔
      (0 ≤ b.fd ∧ k.fdOpen = true ∧
        ∃ a, env.mmapRes b.fd b.mmap_len = some a ∧
          out = ({ b with
                    addr := a
                    frame_id := a + b.len + PADDING_CL },
                  { k with mapLive := true },
                  mem,
                  [KEvent.mmapReq b.fd b.mmap_len])) := by
  unfold VisionBuf.importBuf
  constructor
  · intro h
    split at h
    · split at h
      · exact absurd h (by simp)
      · rename_i a heq
        have hopen : k.fdOpen = true := by
          by_contra hfo
          simp only [Bool.not_eq_true] at hfo
          rw [hfo] at heq
          simp at heq
        rw [hopen] at heq
        simp only [if_true] at heq
        refine ⟨by assumption, hopen, a, heq, ?_⟩
        exact (Option.some_inj.mp h).symm
    · exact absurd h (by simp)
  · rintro ⟨hfd, hopen, a, ha, hout⟩
    rw [if_pos hfd, hopen]
    simp only [if_true, ha, hout]
    rw [hopen]

/-- Stale process memory used by the concrete witnesses: every byte holds the
arbitrary nonzero value 37 before any operation runs. -/
def staleMem : Mem := fun _ => 37

/-- Concrete all-success environment for the witnesses: the ION ioctl succeeds
at once, the mapper returns address 8192, fd 5 is handed out, and every
teardown call succeeds. -/
def envAllOk : Env :=
  { ionCalls := fun _ _ => (0, false)
    ionFd := fun _ => 5
    mmapRes := fun _ _ => some 8192
    syncCalls := fun _ _ _ => (0, false)
    clCreateErr := 0
    clMemHandle := 42
    clReleaseRes := 0
    munmapRes := 0
    closeRes := 0 }

/-- Kernel state before any resource exists. -/
def kIdle : KState := { fdOpen := false, mapLive := false, clLive := false }

/-- Kernel state of a mapped, unregistered buffer. -/
def kMapped : KState := { fdOpen := true, mapLive := true, clLive := false }

/-- Kernel state of a mapped buffer registered with the compute context. -/
def kFull : KState := { fdOpen := true, mapLive := true, clLive := true }

/-- A default-initialized buffer, before `allocate`. -/
def bufInit : VisionBuf :=
  { len := 0, mmap_len := 0, addr := 0, fd := -1, frame_id := 0, buf_cl := 0 }

/-- A buffer as a second process receives it before `import`: fd and lengths
populated out-of-band, no local mapping yet. -/
def bufShared : VisionBuf :=
  { len := 4096, mmap_len := 4104, addr := 0, fd := 5, frame_id := 0, buf_cl := 0 }

/-- The buffer produced by `allocate envAllOk kIdle staleMem bufInit 4096`. -/
def bufAlloc : VisionBuf :=
  { len := 4096, mmap_len := 4104, addr := 8192, fd := 5, frame_id := 12288,
    buf_cl := 0 }

/-- The memory produced by that allocation (stale bytes zeroed over the
mapped region). -/
def memAlloc : Mem := memset staleMem 8192 0 4104

/-- The event trace of that allocation. -/
def trAlloc : List KEvent :=
  [KEvent.ionAllocReq (ionRequestFor 4096), KEvent.mmapReq 5 4104,
    KEvent.memsetZero 8192 4104]

/-- The buffer produced by `allocate envAllOk kIdle staleMem bufInit 0`. -/
def bufAllocZero : VisionBuf :=
  { len := 0, mmap_len := 8, addr := 8192, fd := 5, frame_id := 8192,
    buf_cl := 0 }

/-- The buffer produced by importing `bufShared` under `envAllOk`. -/
def bufImported : VisionBuf :=
  { len := 4096, mmap_len := 4104, addr := 8192, fd := 5, frame_id := 12288,
    buf_cl := 0 }

/-- The all-success environment satisfies the POSIX mapper contract: its only
successful mmap result is the nonzero 64-bit address 8192. -/
theorem envAllOk_mmapSane : envAllOk.mmapSane := by
  intro fd l a ha
  have h : (some 8192 : Option Nat) = some a := ha
  injection h with h2
  refine ⟨by omega, ?_⟩
  rw [← h2]
  decide

/-- The buffer produced by `allocate envAllOk kIdle staleMem bufInit
(2^64 - 4)`: the `size_t` request size wraps to 4, so only a 4-byte region is
mapped and `frame_id` wraps to an address 4 bytes BEFORE the mapping. -/
def bufWrap : VisionBuf :=
  { len := 18446744073709551612, mmap_len := 4, addr := 8192, fd := 5,
    frame_id := 8188, buf_cl := 0 }

/-- The memory after that wrapping allocation: only 4 bytes zeroed. -/
def memWrap : Mem := memset staleMem 8192 0 4

/-- The event trace of that wrapping allocation. -/
def trWrap : List KEvent :=
  [KEvent.ionAllocReq (ionRequestFor 18446744073709551612),
    KEvent.mmapReq 5 4, KEvent.memsetZero 8192 4]

/-- C1 counterexample: at `byte_length = 2^64 - 4 > 0` the request size
`byte_length + PADDING_CL + sizeof(uint64_t)` wraps mod 2^64 to 4, so
`allocate` completes with `mmap_len = 4 < byte_length` and byte 100 of the
"first `byte_length` bytes" still holds its stale value 37, refuting the
universally quantified claim. -/
theorem allocate_zero_fills_cex :
    VisionBuf.allocate envAllOk kIdle staleMem bufInit 18446744073709551612 =
        some (bufWrap, kMapped, memWrap, trWrap) ∧
      0 < 18446744073709551612 ∧
      ¬(18446744073709551612 ≤ bufWrap.mmap_len) ∧
      bufWrap.addr + 100 < bufWrap.addr + 18446744073709551612 ∧
      memWrap (bufWrap.addr + 100) = 37 := by
  refine ⟨rfl, by decide, by decide, by decide, by decide⟩

/-- C1 (amended): for every `byte_length > 0` whose request size
`byte_length + PADDING_CL + sizeof(uint64_t)` does not overflow `size_t`, a
completed `allocate(byte_length)` yields `mapped_length ≥ byte_length`, a
non-null `base_address`, and a zero-filled mapped region — in particular the
first `byte_length` bytes are zero. -/
theorem allocate_zero_fills (env : Env) (k : KState) (mem : Mem)
    (b : VisionBuf) (length x : Nat) (b2 : VisionBuf) (k2 : KState)
    (mem2 : Mem) (tr : List KEvent)
    (hlen : 0 < length)
    (hnw : length + PADDING_CL + SIZEOF_UINT64 < SIZE_T_MOD)
    (hmm : env.mmapSane)
    (h : VisionBuf.allocate env k mem b length = some (b2, k2, mem2, tr)) :
    length ≤ b2.mmap_len ∧ b2.addr ≠ 0 ∧
      (b2.addr ≤ x → x < b2.addr + b2.mmap_len → mem2 x = 0) ∧
      (b2.addr ≤ x → x < b2.addr + length → mem2 x = 0) := by
  obtain ⟨herr, a, ha, hout⟩ := (allocate_some_iff env k mem b length _).mp h
  obtain ⟨hpos, hlt⟩ := hmm _ _ _ ha
  have haeq : a % SIZE_T_MOD = a := Nat.mod_eq_of_lt hlt
  have hreq : (ionRequestFor length).len =
      length + PADDING_CL + SIZEOF_UINT64 := by
    simp only [ionRequestFor]
    exact Nat.mod_eq_of_lt hnw
  simp only [Prod.mk.injEq] at hout
  obtain ⟨hb2, hk2, hmem2, htr⟩ := hout
  subst hb2
  subst hmem2
  refine ⟨?_, ?_, ?_, ?_⟩
  · show length ≤ (ionRequestFor length).len
    rw [hreq]
    omega
  · show ¬(a % SIZE_T_MOD = 0)
    rw [haeq]
    omega
  · intro h1 h2
    have h1a : a % SIZE_T_MOD ≤ x := h1
    have h2a : x < a % SIZE_T_MOD + (ionRequestFor length).len := h2
    show memset mem (a % SIZE_T_MOD) 0 (ionRequestFor length).len x = 0
    simp only [memset]
    rw [if_pos ⟨h1a, h2a⟩]
  · intro h1 h2
    have h1a : a % SIZE_T_MOD ≤ x := h1
    have h2a : x < a % SIZE_T_MOD + length := h2
    show memset mem (a % SIZE_T_MOD) 0 (ionRequestFor length).len x = 0
    simp only [memset]
    rw [if_pos ⟨h1a, by rw [hreq]; omega⟩]

/-- Witness for C1 at `byte_length = 4096` (no `size_t` overflow),
inspecting byte 9000 of the mapped region `[8192, 8192 + 4104)`. -/
theorem allocate_zero_fills_witness :
    0 < 4096 ∧ 4096 + PADDING_CL + SIZEOF_UINT64 < SIZE_T_MOD ∧
      envAllOk.mmapSane ∧
      (4096 ≤ bufAlloc.mmap_len ∧ bufAlloc.addr ≠ 0 ∧
        (bufAlloc.addr ≤ 9000 → 9000 < bufAlloc.addr + bufAlloc.mmap_len →
          memAlloc 9000 = 0) ∧
        (bufAlloc.addr ≤ 9000 → 9000 < bufAlloc.addr + 4096 →
          memAlloc 9000 = 0)) :=
  ⟨by decide, by decide, envAllOk_mmapSane,
    allocate_zero_fills envAllOk kIdle staleMem bufInit 4096 9000 bufAlloc
      kMapped memAlloc trAlloc (by decide) (by decide) envAllOk_mmapSane rfl⟩

/-- C8: a completed `importBuf` leaves every byte of memory unchanged (no
zero-fill) and issues no heap allocation request and no memset. -/
theorem import_no_zero_fill_no_alloc (env : Env) (k : KState) (mem : Mem)
    (b : VisionBuf) (c2 : VisionBuf) (kc : KState) (memc : Mem)
    (trc : List KEvent)
    (h : VisionBuf.importBuf env k mem b = some (c2, kc, memc, trc)) :
    (∀ x, memc x = mem x) ∧
      (∀ req, KEvent.ionAllocReq req ∉ trc) ∧
      (∀ dst n, KEvent.memsetZero dst n ∉ trc) := by
  obtain ⟨hfd, hopen, a, ha, hout⟩ := (importBuf_some_iff env k mem b _).mp h
  simp only [Prod.mk.injEq] at hout
  obtain ⟨hc2, hkc, hmemc, htrc⟩ := hout
  subst hmemc
  subst htrc
  refine ⟨fun x => rfl, ?_, ?_⟩ <;> simp

/-- Witness for C8: the concrete import of `bufShared` leaves `staleMem`
untouched and traces only the mmap call. -/
theorem import_no_zero_fill_no_alloc_witness :
    (∀ x, staleMem x = staleMem x) ∧
      (∀ req, KEvent.ionAllocReq req ∉ [KEvent.mmapReq 5 4104]) ∧
      (∀ dst n, KEvent.memsetZero dst n ∉ [KEvent.mmapReq 5 4104]) :=
  import_no_zero_fill_no_alloc envAllOk kMapped staleMem bufShared
    bufImported kMapped staleMem [KEvent.mmapReq 5 4104] rfl

/-- C9: `allocate(0)` is permitted by the code; a completed `allocate(0)`
yields an empty usable region while the padding and the 8-byte frame counter
still fit in the mapped region, and `frame_id` stays valid (it lies at offset
`PADDING_CL` with its 8 bytes inside the mapping). -/
theorem allocate_zero_length (env : Env) (k : KState) (mem : Mem)
    (b : VisionBuf) (b2 : VisionBuf) (k2 : KState) (mem2 : Mem)
    (tr : List KEvent)
    (h : VisionBuf.allocate env k mem b 0 = some (b2, k2, mem2, tr)) :
    b2.len = 0 ∧ b2.mmap_len = PADDING_CL + SIZEOF_UINT64 ∧
      b2.frame_id = b2.addr + PADDING_CL ∧
      b2.addr ≤ b2.frame_id ∧
      b2.frame_id + SIZEOF_UINT64 ≤ b2.addr + b2.mmap_len := by
  obtain ⟨herr, a, ha, hout⟩ := (allocate_some_iff env k mem b 0 _).mp h
  simp only [Prod.mk.injEq] at hout
  obtain ⟨hb2, hk2, hmem2, htr⟩ := hout
  subst hb2
  refine ⟨rfl, rfl, ?_, ?_, ?_⟩
  · show (a % SIZE_T_MOD + 0 + PADDING_CL) % SIZE_T_MOD =
      a % SIZE_T_MOD + PADDING_CL
    simp only [PADDING_CL, SIZE_T_MOD]
    omega
  · show a % SIZE_T_MOD ≤ (a % SIZE_T_MOD + 0 + PADDING_CL) % SIZE_T_MOD
    simp only [PADDING_CL, SIZE_T_MOD]
    omega
  · show (a % SIZE_T_MOD + 0 + PADDING_CL) % SIZE_T_MOD + SIZEOF_UINT64 ≤
      a % SIZE_T_MOD + (ionRequestFor 0).len
    simp only [PADDING_CL, SIZEOF_UINT64, SIZE_T_MOD, ionRequestFor]
    omega

/-- Witness for C9: `allocate(0)` under the all-success environment completes
and produces the 8-byte region `[8192, 8200)` holding only the counter. -/
theorem allocate_zero_length_witness :
    bufAllocZero.len = 0 ∧ bufAllocZero.mmap_len = PADDING_CL + SIZEOF_UINT64 ∧
      bufAllocZero.frame_id = bufAllocZero.addr + PADDING_CL ∧
      bufAllocZero.addr ≤ bufAllocZero.frame_id ∧
      bufAllocZero.frame_id + SIZEOF_UINT64 ≤
        bufAllocZero.addr + bufAllocZero.mmap_len :=
  allocate_zero_length envAllOk kIdle staleMem bufInit bufAllocZero kMapped
    (memset staleMem 8192 0 8)
    [KEvent.ionAllocReq (ionRequestFor 0), KEvent.mmapReq 5 8,
      KEvent.memsetZero 8192 8] rfl

/-- On an unregistered buffer (`buf_cl == 0`) `free` is just its tail:
`munmap` then `close`. -/
theorem free_unreg (env : Env) (k : KState) (b : VisionBuf)
    (h0 : b.buf_cl = 0) : VisionBuf.free env k b = freeTail env k := by
  simp only [VisionBuf.free]
  rw [if_neg (by simp [h0])]

/-- On a registered buffer, a failing `clReleaseMemObject` makes `free` return
that error at once, with only the release step in the trace. -/
theorem free_reg_fail (env : Env) (k : KState) (b : VisionBuf)
    (h0 : b.buf_cl ≠ 0) (hr : (clReleaseC env k).1 ≠ 0) :
    VisionBuf.free env k b =
      ((clReleaseC env k).1, (clReleaseC env k).2, [KEvent.clRelease]) := by
  simp only [VisionBuf.free]
  rw [if_pos h0, if_pos hr]

/-- On a registered buffer, a successful `clReleaseMemObject` makes `free`
continue with the tail, prefixing the release step to the trace. -/
theorem free_reg_ok (env : Env) (k : KState) (b : VisionBuf)
    (h0 : b.buf_cl ≠ 0) (hr : (clReleaseC env k).1 = 0) :
    VisionBuf.free env k b =
      ((freeTail env (clReleaseC env k).2).1,
        (freeTail env (clReleaseC env k).2).2.1,
        KEvent.clRelease :: (freeTail env (clReleaseC env k).2).2.2) := by
  simp only [VisionBuf.free]
  rw [if_pos h0, if_neg (by simp [hr])]

/-- A failing `munmap` makes the tail of `free` return the munmap error with
no close step. -/
theorem freeTail_fail (env : Env) (k : KState)
    (hm : (munmapC env k).1 ≠ 0) :
    freeTail env k = ((munmapC env k).1, (munmapC env k).2,
      [KEvent.munmapCall]) := by
  simp only [freeTail]
  rw [if_pos hm]

/-- A successful `munmap` makes the tail of `free` run `close` and return its
status. -/
theorem freeTail_ok (env : Env) (k : KState)
    (hm : (munmapC env k).1 = 0) :
    freeTail env k = ((closeC env (munmapC env k).2).1,
      (closeC env (munmapC env k).2).2,
      [KEvent.munmapCall, KEvent.closeCall]) := by
  simp only [freeTail]
  rw [if_neg (by simp [hm])]

/-- A `clReleaseMemObject` call can only return 0 on a live object with a
succeeding runtime, and then the object is dead afterwards. -/
theorem clReleaseC_eq_zero (env : Env) (k : KState)
    (h : (clReleaseC env k).1 = 0) :
    k.clLive = true ∧ env.clReleaseRes = 0 ∧
      (clReleaseC env k).2 = { k with clLive := false } := by
  by_cases hl : k.clLive
  · have h2 : env.clReleaseRes = 0 := by simpa [clReleaseC, hl] using h
    exact ⟨hl, h2, by simp [clReleaseC, hl, h2]⟩
  · exfalso
    have h2 : (-38 : Int) = 0 := by simpa [clReleaseC, hl] using h
    exact absurd h2 (by decide)

/-- A `munmap` call can only return 0 on a live mapping with a succeeding
kernel call, and then the mapping is dead afterwards. -/
theorem munmapC_eq_zero (env : Env) (k : KState)
    (h : (munmapC env k).1 = 0) :
    k.mapLive = true ∧ env.munmapRes = 0 ∧
      (munmapC env k).2 = { k with mapLive := false } := by
  by_cases hl : k.mapLive
  · have h2 : env.munmapRes = 0 := by simpa [munmapC, hl] using h
    exact ⟨hl, h2, by simp [munmapC, hl, h2]⟩
  · exfalso
    have h2 : (-1 : Int) = 0 := by simpa [munmapC, hl] using h
    exact absurd h2 (by decide)

/-- A `close` call can only return 0 on an open fd with a succeeding kernel
call, and then the fd is closed afterwards. -/
theorem closeC_eq_zero (env : Env) (k : KState)
    (h : (closeC env k).1 = 0) :
    k.fdOpen = true ∧ env.closeRes = 0 ∧
      (closeC env k).2 = { k with fdOpen := false } := by
  by_cases hl : k.fdOpen
  · have h2 : env.closeRes = 0 := by simpa [closeC, hl] using h
    exact ⟨hl, h2, by simp [closeC, hl, h2]⟩
  · exfalso
    have h2 : (-1 : Int) = 0 := by simpa [closeC, hl] using h
    exact absurd h2 (by decide)

/-- With the buffer's fd closed, a valid-direction `sync` returns the error
status `-1` (`EBADF` from the first ioctl attempt, no retries). -/
theorem sync_closed_fd (env2 : Env) (k2 : KState) (b : VisionBuf) (dir : Int)
    (hfd : k2.fdOpen = false)
    (hdir : dir = VISIONBUF_SYNC_FROM_DEVICE ∨
      dir = VISIONBUF_SYNC_TO_DEVICE) :
    VisionBuf.sync env2 k2 b dir = some (-1) := by
  unfold VisionBuf.sync
  rw [if_pos hdir]
  have h0 : ioctlSyncStream env2 k2 b.fd (syncFlags dir) 0 = (-1, false) := by
    unfold ioctlSyncStream
    rw [hfd]
    simp
  have hfirst := handleEintrGo_first
    (ioctlSyncStream env2 k2 b.fd (syncFlags dir)) EINTR_RETRY_BOUND 0 0
    (le_refl 0) (by omega) (fun j h1 h2 => absurd h2 (by omega))
    (by rw [h0]; simp)
  unfold HANDLE_EINTR
  rw [hfirst, h0]

/-- With the buffer's fd closed, `importBuf` hits `MAP_FAILED` and aborts
fatally. -/
theorem importBuf_closed_fd (env2 : Env) (k2 : KState) (mem2 : Mem)
    (b : VisionBuf) (hfd : k2.fdOpen = false) :
    VisionBuf.importBuf env2 k2 mem2 b = none := by
  unfold VisionBuf.importBuf
  split
  · rw [hfd]
    simp
  · rfl

/-- With the buffer's fd closed, `init_cl` is rejected by the OpenCL runtime
and aborts fatally. -/
theorem init_cl_closed_fd (env2 : Env) (k2 : KState) (b : VisionBuf)
    (hfd : k2.fdOpen = false) :
    VisionBuf.init_cl env2 k2 b = none := by
  unfold VisionBuf.init_cl
  split
  · rw [hfd]
    simp
  · rfl

/-- Environment in which only `clReleaseMemObject` fails (with `-7`). -/
def envClRelFail : Env := { envAllOk with clReleaseRes := -7 }

/-- Environment in which only `munmap` fails (with `-1`). -/
def envMunmapFail : Env := { envAllOk with munmapRes := -1 }

/-- Environment in which the ION allocation ioctl fails at once (`-1`, not
`EINTR`: e.g. heap exhaustion / `ENOMEM`). -/
def envIonFail : Env := { envAllOk with ionCalls := fun _ _ => (-1, false) }

/-- Environment in which `mmap` always returns `MAP_FAILED`. -/
def envMmapFail : Env := { envAllOk with mmapRes := fun _ _ => none }

/-- Environment in which `clCreateBuffer` rejects the registration (`-5`). -/
def envClFail : Env := { envAllOk with clCreateErr := -5 }

/-- The allocated buffer after registration with the compute context. -/
def bufReg : VisionBuf :=
  { len := 4096, mmap_len := 4104, addr := 8192, fd := 5, frame_id := 12288,
    buf_cl := 42 }

/-- An allocated buffer whose mapping is not page-aligned. -/
def bufMisaligned : VisionBuf :=
  { len := 4096, mmap_len := 4104, addr := 100, fd := 5, frame_id := 4196,
    buf_cl := 0 }

/-- C2: `free` tears down in the order `clReleaseMemObject`, `munmap`,
`close`; the OpenCL release step is attempted exactly when `buf_cl` is
non-null; and if the OpenCL release fails, `free` returns that error with
only the release step performed, mapping and fd left intact. -/
theorem free_order_and_cl_abort (env : Env) (k : KState) (b : VisionBuf)
    (hcl : b.buf_cl ≠ 0 → k.clLive = true) :
    (b.buf_cl = 0 →
      KEvent.clRelease ∉ (VisionBuf.free env k b).2.2 ∧
        ((VisionBuf.free env k b).2.2 = [KEvent.munmapCall] ∨
          (VisionBuf.free env k b).2.2 =
            [KEvent.munmapCall, KEvent.closeCall])) ∧
      (b.buf_cl ≠ 0 →
        ((VisionBuf.free env k b).2.2 = [KEvent.clRelease] ∨
          (VisionBuf.free env k b).2.2 =
            [KEvent.clRelease, KEvent.munmapCall] ∨
          (VisionBuf.free env k b).2.2 =
            [KEvent.clRelease, KEvent.munmapCall, KEvent.closeCall])) ∧
      (b.buf_cl ≠ 0 → env.clReleaseRes ≠ 0 →
        (VisionBuf.free env k b).1 = env.clReleaseRes ∧
          (VisionBuf.free env k b).2.2 = [KEvent.clRelease] ∧
          (VisionBuf.free env k b).2.1.mapLive = k.mapLive ∧
          (VisionBuf.free env k b).2.1.fdOpen = k.fdOpen) := by
  refine ⟨?_, ?_, ?_⟩
  · intro h0
    rw [free_unreg env k b h0]
    by_cases hm : (munmapC env k).1 = 0
    · rw [freeTail_ok env k hm]
      exact ⟨by simp, Or.inr rfl⟩
    · rw [freeTail_fail env k hm]
      exact ⟨by simp, Or.inl rfl⟩
  · intro h0
    by_cases hr : (clReleaseC env k).1 = 0
    · rw [free_reg_ok env k b h0 hr]
      by_cases hm : (munmapC env (clReleaseC env k).2).1 = 0
      · rw [freeTail_ok env _ hm]
        exact Or.inr (Or.inr rfl)
      · rw [freeTail_fail env _ hm]
        exact Or.inr (Or.inl rfl)
    · rw [free_reg_fail env k b h0 hr]
      exact Or.inl rfl
  · intro h0 hres
    have hlive := hcl h0
    have hr : (clReleaseC env k).1 ≠ 0 := by
      simp [clReleaseC, hlive]
      exact hres
    rw [free_reg_fail env k b h0 hr]
    refine ⟨by simp [clReleaseC, hlive], rfl, ?_, ?_⟩ <;>
      simp [clReleaseC, hlive, hres]

/-- Witness for C2: a registered buffer whose OpenCL release fails with `-7`
keeps its mapping and fd. -/
theorem free_order_and_cl_abort_witness :
    (bufReg.buf_cl ≠ 0 → kFull.clLive = true) ∧
      ((VisionBuf.free envClRelFail kFull bufReg).1 =
          envClRelFail.clReleaseRes ∧
        (VisionBuf.free envClRelFail kFull bufReg).2.2 = [KEvent.clRelease] ∧
        (VisionBuf.free envClRelFail kFull bufReg).2.1.mapLive =
          kFull.mapLive ∧
        (VisionBuf.free envClRelFail kFull bufReg).2.1.fdOpen =
          kFull.fdOpen) :=
  ⟨fun _ => rfl,
    (free_order_and_cl_abort envClRelFail kFull bufReg (fun _ => rfl)).2.2
      (by decide) (by decide)⟩

/-- C3 counterexample: on an unregistered mapped buffer whose `munmap` fails,
`free` returns the munmap error but the close of the fd is NOT performed,
contradicting the claim that all present teardown steps still run. -/
theorem free_unmap_fail_skips_close_cex :
    kMapped.fdOpen = true ∧
      (VisionBuf.free envMunmapFail kMapped bufAlloc).1 = -1 ∧
      (VisionBuf.free envMunmapFail kMapped bufAlloc).2.2 =
        [KEvent.munmapCall] ∧
      KEvent.closeCall ∉ (VisionBuf.free envMunmapFail kMapped bufAlloc).2.2 := by
  decide

/-- C3 amended: `free` stops at the first failing step; in particular when
`munmap` fails its error is reported and the close of the fd is skipped. -/
theorem free_unmap_fail_reports_and_stops (env : Env) (k : KState)
    (b : VisionBuf) (hmap : k.mapLive = true) (hfail : env.munmapRes ≠ 0)
    (hpre : b.buf_cl ≠ 0 → (k.clLive = true ∧ env.clReleaseRes = 0)) :
    (VisionBuf.free env k b).1 = env.munmapRes ∧
      KEvent.munmapCall ∈ (VisionBuf.free env k b).2.2 ∧
      KEvent.closeCall ∉ (VisionBuf.free env k b).2.2 := by
  by_cases h0 : b.buf_cl = 0
  · rw [free_unreg env k b h0]
    have hm : (munmapC env k).1 ≠ 0 := by
      simp [munmapC, hmap]
      exact hfail
    rw [freeTail_fail env k hm]
    exact ⟨by simp [munmapC, hmap], by simp, by simp⟩
  · obtain ⟨hlive, hok⟩ := hpre h0
    have hr : (clReleaseC env k).1 = 0 := by simp [clReleaseC, hlive, hok]
    rw [free_reg_ok env k b h0 hr]
    have hk1 : (clReleaseC env k).2 = { k with clLive := false } :=
      (clReleaseC_eq_zero env k hr).2.2
    rw [hk1]
    have hm : (munmapC env { k with clLive := false }).1 ≠ 0 := by
      simp [munmapC, hmap]
      exact hfail
    rw [freeTail_fail env _ hm]
    exact ⟨by simp [munmapC, hmap], by simp, by simp⟩

/-- Witness for C3's amended claim: the concrete munmap failure. -/
theorem free_unmap_fail_reports_and_stops_witness :
    kMapped.mapLive = true ∧ envMunmapFail.munmapRes ≠ 0 ∧
      ((VisionBuf.free envMunmapFail kMapped bufAlloc).1 =
          envMunmapFail.munmapRes ∧
        KEvent.munmapCall ∈ (VisionBuf.free envMunmapFail kMapped bufAlloc).2.2 ∧
        KEvent.closeCall ∉ (VisionBuf.free envMunmapFail kMapped bufAlloc).2.2) :=
  ⟨rfl, by decide,
    free_unmap_fail_reports_and_stops envMunmapFail kMapped bufAlloc rfl
      (by decide) (by decide)⟩

/-- C4: a `free` that returns 0 has killed the mapping, the fd and (if any)
the OpenCL object together, and afterwards `sync` on the same instance
returns an error status while `importBuf` and `init_cl` abort fatally, for
every environment — until a fresh allocate/import re-establishes resources. -/
theorem free_success_invalidates (env : Env) (k : KState) (b : VisionBuf)
    (k2 : KState) (tr : List KEvent) (env2 : Env) (mem2 : Mem) (dir : Int)
    (hcl : k.clLive = true → b.buf_cl ≠ 0)
    (hdir : dir = VISIONBUF_SYNC_FROM_DEVICE ∨
      dir = VISIONBUF_SYNC_TO_DEVICE)
    (h : VisionBuf.free env k b = (0, k2, tr)) :
    k2.fdOpen = false ∧ k2.mapLive = false ∧ k2.clLive = false ∧
      VisionBuf.sync env2 k2 b dir = some (-1) ∧
      VisionBuf.importBuf env2 k2 mem2 b = none ∧
      VisionBuf.init_cl env2 k2 b = none := by
  have hk : k2.fdOpen = false ∧ k2.mapLive = false ∧ k2.clLive = false := by
    by_cases h0 : b.buf_cl = 0
    · rw [free_unreg env k b h0] at h
      by_cases hm : (munmapC env k).1 = 0
      · rw [freeTail_ok env k hm] at h
        simp only [Prod.mk.injEq] at h
        obtain ⟨hc, hk2, htr⟩ := h
        obtain ⟨hmap, hmres, hk1⟩ := munmapC_eq_zero env k hm
        rw [hk1] at hc hk2
        obtain ⟨hfo, hcres, hk2c⟩ := closeC_eq_zero env _ hc
        rw [hk2c] at hk2
        have hclf : k.clLive = false := by
          cases hx : k.clLive
          · rfl
          · exact absurd (hcl hx) (by simp [h0])
        rw [← hk2]
        simp [hclf]
      · rw [freeTail_fail env k hm] at h
        simp only [Prod.mk.injEq] at h
        exact absurd h.1 hm
    · by_cases hr : (clReleaseC env k).1 = 0
      · rw [free_reg_ok env k b h0 hr] at h
        simp only [Prod.mk.injEq] at h
        obtain ⟨ht1, hk2, htr⟩ := h
        have hk1 : (clReleaseC env k).2 = { k with clLive := false } :=
          (clReleaseC_eq_zero env k hr).2.2
        rw [hk1] at ht1 hk2
        by_cases hm : (munmapC env { k with clLive := false }).1 = 0
        · rw [freeTail_ok env _ hm] at ht1 hk2
          simp only at ht1 hk2
          obtain ⟨hmap, hmres, hkm⟩ := munmapC_eq_zero env _ hm
          rw [hkm] at ht1 hk2
          obtain ⟨hfo, hcres, hk2c⟩ := closeC_eq_zero env _ ht1
          rw [hk2c] at hk2
          rw [← hk2]
          simp
        · rw [freeTail_fail env _ hm] at ht1
          simp only at ht1
          exact absurd ht1 hm
      · rw [free_reg_fail env k b h0 hr] at h
        simp only [Prod.mk.injEq] at h
        exact absurd h.1 hr
  obtain ⟨hf, hm2, hc2⟩ := hk
  exact ⟨hf, hm2, hc2, sync_closed_fd env2 k2 b dir hf hdir,
    importBuf_closed_fd env2 k2 mem2 b hf, init_cl_closed_fd env2 k2 b hf⟩

/-- Witness for C4: a registered buffer fully freed under the all-success
environment; afterwards every operation fails or is rejected. -/
theorem free_success_invalidates_witness :
    (kFull.clLive = true → bufReg.buf_cl ≠ 0) ∧
      ((0 : Int) = VISIONBUF_SYNC_FROM_DEVICE ∨
        (0 : Int) = VISIONBUF_SYNC_TO_DEVICE) ∧
      (kIdle.fdOpen = false ∧ kIdle.mapLive = false ∧ kIdle.clLive = false ∧
        VisionBuf.sync envAllOk kIdle bufReg 0 = some (-1) ∧
        VisionBuf.importBuf envAllOk kIdle staleMem bufReg = none ∧
        VisionBuf.init_cl envAllOk kIdle bufReg = none) :=
  ⟨fun _ => by decide, Or.inl rfl,
    free_success_invalidates envAllOk kFull bufReg kIdle
      [KEvent.clRelease, KEvent.munmapCall, KEvent.closeCall] envAllOk
      staleMem 0 (fun _ => by decide) (Or.inl rfl) rfl⟩

/-- C5: for every valid direction `sync` returns a status and never aborts;
its result is always the verbatim result of one of at most 101 attempts of
the same fixed request; if every attempt is interrupted (`EINTR`) until the
bound exhausts, the error status `-1` is surfaced; and the first attempt that
is not an `EINTR` failure has its result surfaced unchanged. -/
theorem sync_status_bounded_retry (env : Env) (k : KState) (b : VisionBuf)
    (dir : Int)
    (hdir : dir = VISIONBUF_SYNC_FROM_DEVICE ∨
      dir = VISIONBUF_SYNC_TO_DEVICE) :
    (∃ r, VisionBuf.sync env k b dir = some r) ∧
      (∃ j, j ≤ EINTR_RETRY_BOUND ∧
        VisionBuf.sync env k b dir =
          some ((ioctlSyncStream env k b.fd (syncFlags dir) j).1)) ∧
      ((∀ j, j ≤ EINTR_RETRY_BOUND →
          ioctlSyncStream env k b.fd (syncFlags dir) j = (-1, true)) →
        VisionBuf.sync env k b dir = some (-1)) ∧
      (∀ m, m ≤ EINTR_RETRY_BOUND →
        (∀ j, j < m →
          ioctlSyncStream env k b.fd (syncFlags dir) j = (-1, true)) →
        ¬((ioctlSyncStream env k b.fd (syncFlags dir) m).1 = -1 ∧
            (ioctlSyncStream env k b.fd (syncFlags dir) m).2 = true) →
        VisionBuf.sync env k b dir =
          some ((ioctlSyncStream env k b.fd (syncFlags dir) m).1)) := by
  have hs : VisionBuf.sync env k b dir =
      some (HANDLE_EINTR (ioctlSyncStream env k b.fd (syncFlags dir))) := by
    unfold VisionBuf.sync
    rw [if_pos hdir]
  refine ⟨⟨_, hs⟩, ?_, ?_, ?_⟩
  · obtain ⟨j, h1, h2, h3⟩ := handleEintrGo_exists
      (ioctlSyncStream env k b.fd (syncFlags dir)) EINTR_RETRY_BOUND 0
    refine ⟨j, by omega, ?_⟩
    rw [hs]
    unfold HANDLE_EINTR
    rw [h3]
  · intro hall
    rw [hs]
    unfold HANDLE_EINTR
    rw [handleEintrGo_exhaust _ _ _ (fun j h1 h2 => hall j (by omega))]
  · intro m hm hpre hstop
    rw [hs]
    unfold HANDLE_EINTR
    rw [handleEintrGo_first _ _ _ m (by omega) (by omega)
      (fun j h1 h2 => hpre j h2) hstop]

/-- Witness for C5: a `FROM_DEVICE` sync under the all-success environment
returns a status. -/
theorem sync_status_bounded_retry_witness :
    ((0 : Int) = VISIONBUF_SYNC_FROM_DEVICE ∨
      (0 : Int) = VISIONBUF_SYNC_TO_DEVICE) ∧
      (∃ r, VisionBuf.sync envAllOk kMapped bufAlloc 0 = some r) :=
  ⟨Or.inl rfl,
    (sync_status_bounded_retry envAllOk kMapped bufAlloc 0 (Or.inl rfl)).1⟩

/-- C6: each fatal condition aborts its operation (modelled as `none`, the
failed `assert`), never as a returned status: heap denial in `allocate`,
`mmap` failure in `allocate` or `importBuf`, a negative fd in `importBuf`,
a misaligned `addr` in `init_cl`, and OpenCL registration rejection in
`init_cl`. -/
theorem fatal_asserts (env : Env) (k : KState) (mem : Mem) (b : VisionBuf)
    (length : Nat) :
    (HANDLE_EINTR (env.ionCalls (ionRequestFor length)) ≠ 0 →
      VisionBuf.allocate env k mem b length = none) ∧
      (env.mmapRes (env.ionFd (ionRequestFor length))
          (ionRequestFor length).len = none →
        VisionBuf.allocate env k mem b length = none) ∧
      (b.fd < 0 → VisionBuf.importBuf env k mem b = none) ∧
      (env.mmapRes b.fd b.mmap_len = none →
        VisionBuf.importBuf env k mem b = none) ∧
      (b.addr % DEVICE_PAGE_SIZE_CL ≠ 0 →
        VisionBuf.init_cl env k b = none) ∧
      (k.fdOpen = true → env.clCreateErr ≠ 0 →
        VisionBuf.init_cl env k b = none) := by
  refine ⟨?_, ?_, ?_, ?_, ?_, ?_⟩
  · intro h
    simp only [VisionBuf.allocate]
    rw [if_neg h]
  · intro h
    by_cases herr : HANDLE_EINTR (env.ionCalls (ionRequestFor length)) = 0
    · simp only [VisionBuf.allocate]
      rw [if_pos herr, h]
    · simp only [VisionBuf.allocate]
      rw [if_neg herr]
  · intro h
    unfold VisionBuf.importBuf
    rw [if_neg (by omega)]
  · intro h
    unfold VisionBuf.importBuf
    split
    · cases hf : k.fdOpen
      · simp [hf]
      · simp [hf, h]
    · rfl
  · intro h
    unfold VisionBuf.init_cl
    rw [if_neg h]
  · intro hf h
    unfold VisionBuf.init_cl
    split
    · rw [hf]
      simp [h]
    · rfl

/-- Witness for C6: six concrete fatal aborts, one per condition. -/
theorem fatal_asserts_witness :
    VisionBuf.allocate envIonFail kIdle staleMem bufInit 4096 = none ∧
      VisionBuf.allocate envMmapFail kIdle staleMem bufInit 4096 = none ∧
      VisionBuf.importBuf envAllOk kMapped staleMem bufInit = none ∧
      VisionBuf.importBuf envMmapFail kMapped staleMem bufShared = none ∧
      VisionBuf.init_cl envAllOk kMapped bufMisaligned = none ∧
      VisionBuf.init_cl envClFail kMapped bufAlloc = none :=
  ⟨(fatal_asserts envIonFail kIdle staleMem bufInit 4096).1 (by decide),
    (fatal_asserts envMmapFail kIdle staleMem bufInit 4096).2.1 rfl,
    (fatal_asserts envAllOk kMapped staleMem bufInit 0).2.2.1 (by decide),
    (fatal_asserts envMmapFail kMapped staleMem bufShared 0).2.2.2.1 rfl,
    (fatal_asserts envAllOk kMapped staleMem bufMisaligned 0).2.2.2.2.1
      (by decide),
    (fatal_asserts envClFail kMapped staleMem bufAlloc 0).2.2.2.2.2 rfl
      (by decide)⟩

end DmaBuf
